import Mathlib

/-!
Verification development for the DELTA_V2 cloud CAD service
(`src/streamlit_app.py`).  The request handler `generate_cad`, the
readiness endpoint `health` and the Streamlit self-test button are
embedded shallowly: strings are `List Char`, byte files are `List Nat`
(each element `< 256`), and the effectful collaborators (filesystem
write, subprocess execution, artifact presence, artifact read) are
oracles recorded in an environment record.  A Python exception that
escapes the handler is an `Except.error`.
-/

namespace DeltaV2

/-- Single-quote character (written via its code point). -/
def squote : Char := Char.ofNat 39

/-- Double-quote character (written via its code point). -/
def dquote : Char := Char.ofNat 34

/-- Boolean substring test: does `pat` occur (contiguously) in `s`? -/
def containsSeq (pat : List Char) : List Char → Bool
  | [] => pat.isEmpty
  | c :: rest => pat.isPrefixOf (c :: rest) || containsSeq pat rest

/-- Fuel-driven model of Python `str.replace` (all non-overlapping
occurrences, scanned left to right).  The fuel makes the definition
structurally recursive, hence kernel-computable; with `fuel ≥ s.length`
and a nonempty pattern the fuel never runs out. -/
def replaceAllFuel : Nat → List Char → List Char → List Char → List Char
  | 0, _, _, s => s
  | _ + 1, _, _, [] => []
  | fuel + 1, pat, rep, c :: rest =>
    if pat.isPrefixOf (c :: rest) then
      rep ++ replaceAllFuel fuel pat rep (List.drop pat.length (c :: rest))
    else
      c :: replaceAllFuel fuel pat rep rest

/-- Python `s.replace(pat, rep)` for a nonempty pattern. -/
def replaceAll (pat rep s : List Char) : List Char :=
  replaceAllFuel s.length pat rep s

/-- The single-quoted literal `'output.stl'` searched for by the handler. -/
def singleQuotedLit : List Char := squote :: ("output.stl".toList ++ [squote])

/-- The double-quoted literal `"output.stl"` searched for by the handler. -/
def doubleQuotedLit : List Char := dquote :: ("output.stl".toList ++ [dquote])

/-- `os.path.join(tmpdir, "model.py")`: the script file inside the workspace. -/
def scriptPath (tmpdir : List Char) : List Char := tmpdir ++ "/model.py".toList

/-- `os.path.join(tmpdir, "output.stl")`: the artifact file inside the workspace. -/
def outputPath (tmpdir : List Char) : List Char := tmpdir ++ "/output.stl".toList

/-- The replacement text `f"'{output_path}'"`. -/
def sQuotedPath (tmpdir : List Char) : List Char :=
  squote :: (outputPath tmpdir ++ [squote])

/-- The replacement text `f'"{output_path}"'`. -/
def dQuotedPath (tmpdir : List Char) : List Char :=
  dquote :: (outputPath tmpdir ++ [dquote])

/-- The two `str.replace` calls of `generate_cad` (single-quoted form
first, then double-quoted form). -/
def prepareCode (tmpdir code : List Char) : List Char :=
  replaceAll doubleQuotedLit (dQuotedPath tmpdir)
    (replaceAll singleQuotedLit (sQuotedPath tmpdir) code)

/-! ## Base64 (model of `base64.b64encode(...).decode("utf-8")`) -/

/-- The standard base64 alphabet. -/
def b64Alphabet : List Char :=
  "ABCDEFGHIJKLMNOPQRSTUVWXYZabcdefghijklmnopqrstuvwxyz0123456789+/".toList

/-- The base64 character for a sextet. -/
def b64Char (n : Nat) : Char := b64Alphabet.getD n 'A'

/-- Index of a character in a list (first occurrence). -/
def idxOfChar (ch : Char) : List Char → Nat
  | [] => 0
  | c :: rest => if c = ch then 0 else idxOfChar ch rest + 1

/-- Sextet value of a base64 character. -/
def b64CharVal (ch : Char) : Nat := idxOfChar ch b64Alphabet

/-- Standard base64 encoding of a byte list (each byte `< 256`),
matching Python `base64.b64encode`. -/
def b64encode : List Nat → List Char
  | [] => []
  | [a] => [b64Char (a / 4), b64Char (a % 4 * 16), '=', '=']
  | [a, b] => [b64Char (a / 4), b64Char (a % 4 * 16 + b / 16), b64Char (b % 16 * 4), '=']
  | a :: b :: c :: rest =>
    b64Char (a / 4) :: b64Char (a % 4 * 16 + b / 16) ::
      b64Char (b % 16 * 4 + c / 64) :: b64Char (c % 64) :: b64encode rest

/-- Standard base64 decoding (inverse direction of `b64encode`). -/
def b64decode : List Char → List Nat
  | c1 :: c2 :: c3 :: c4 :: rest =>
    if c3 = '=' then
      [b64CharVal c1 * 4 + b64CharVal c2 / 16]
    else if c4 = '=' then
      [b64CharVal c1 * 4 + b64CharVal c2 / 16,
       b64CharVal c2 % 16 * 16 + b64CharVal c3 / 4]
    else
      (b64CharVal c1 * 4 + b64CharVal c2 / 16) ::
        (b64CharVal c2 % 16 * 16 + b64CharVal c3 / 4) ::
        (b64CharVal c3 % 4 * 64 + b64CharVal c4) :: b64decode rest
  | _ => []

/-! ## Data model -/

/-- `CADResponse` (pydantic model, lines 33-36): `success`, optional
`stl_data`, optional `error` (both default `None`). -/
structure CADResponse where
  success : Bool
  stl_data : Option (List Char)
  error : Option (List Char)
deriving DecidableEq, Repr

/-- Behaviour of the spawned subprocess for one request: how much
wall-clock time the script needs, the exit code / captured streams it
would produce if allowed to finish, and an optional exception raised by
the spawning facility itself. -/
structure ProcBehavior where
  wallTime : Nat
  exitCode : Int
  stdout : List Char
  stderr : List Char
  spawnFault : Option (List Char)
deriving DecidableEq, Repr

/-- Outcome of one `subprocess.run` call. -/
inductive RunOutcome where
  | completed (exitCode : Int) (stdout stderr : List Char)
  | timedOut
  | raised (msg : List Char)
deriving DecidableEq, Repr

/-- Modelled from the spec: the external process-execution facility
(`subprocess.run` with `capture_output=True, text=True, timeout=t`).
It completes when the script finishes within the wall-clock budget,
raises `TimeoutExpired` when the budget is exceeded, and may raise some
other exception while spawning. -/
def subprocessRun (timeoutSec : Nat) (p : ProcBehavior) : RunOutcome :=
  match p.spawnFault with
  | some m => .raised m
  | none =>
    if p.wallTime ≤ timeoutSec then .completed p.exitCode p.stdout p.stderr
    else .timedOut

/-- State of the child process after `subprocess.run` returns or raises. -/
inductive ChildState where
  | notSpawned
  | exited
  | killed
  | running
deriving DecidableEq, Repr

/-- Modelled from the spec: "the subprocess must be terminated (or
guaranteed not to leak) when the timeout fires" — `subprocess.run`
kills and reaps the child when the timeout expires, so the child is
never left running after the call. -/
def childStateAfter (timeoutSec : Nat) (p : ProcBehavior) : ChildState :=
  match p.spawnFault with
  | some _ => .notSpawned
  | none => if p.wallTime ≤ timeoutSec then .exited else .killed

/-- Oracle environment for one `generate_cad` request: the fresh
temporary directory name, the outcome of writing a given script text
(`some msg` = the write raises, e.g. `UnicodeEncodeError`), the
subprocess behaviour, the content of `output_path` after the run
(`none` = the file does not exist), and the outcome of reading it. -/
structure Env where
  tmpdir : List Char
  writeFault : List Char → Option (List Char)
  proc : ProcBehavior
  artifactAfter : Option (List Nat)
  readFault : Option (List Char)

/-- The fixed artifact-missing message of line 109. -/
def msgArtifactMissing : List Char := "Fichier STL non généré".toList

/-- The fixed timeout message of line 127. -/
def msgTimeout : List Char := "Timeout (>45s)".toList

/-- Shallow embedding of `generate_cad` (lines 76-133).  The rewritten
script is produced by `prepareCode` and written to the workspace (a
write fault occurs before the `try` block and therefore escapes as an
exception, `Except.error`); everything from `subprocess.run` onwards is
inside `try ... except subprocess.TimeoutExpired ... except Exception`,
so every fault there becomes a `CADResponse` with `success=False`. -/
def generate_cad (env : Env) (requestCode : List Char) :
    Except (List Char) CADResponse :=
  match env.writeFault (prepareCode env.tmpdir requestCode) with
  | some m => .error m
  | none =>
    match subprocessRun 45 env.proc with
    | .raised m => .ok ⟨false, none, some m⟩
    | .timedOut => .ok ⟨false, none, some msgTimeout⟩
    | .completed rc _out err =>
      if rc ≠ 0 then .ok ⟨false, none, some (err.take 500)⟩
      else
        match env.artifactAfter with
        | none => .ok ⟨false, none, some msgArtifactMissing⟩
        | some bytes =>
          match env.readFault with
          | some m => .ok ⟨false, none, some m⟩
          | none => .ok ⟨true, some (b64encode bytes), none⟩

/-- Filesystem entries created while serving one request: the temporary
directory itself, the script file written into it, and — when the
subprocess produced it — the artifact file. -/
def requestEntriesCreated (env : Env) : List (List Char) :=
  env.tmpdir :: scriptPath env.tmpdir ::
    (match env.artifactAfter with
     | some _ => [outputPath env.tmpdir]
     | none => [])

/-- Entries still existing after `generate_cad` returns: the
`tempfile.TemporaryDirectory` context manager removes the directory and
everything under it on every exit path (normal return, error return,
exception, timeout). -/
def entriesAfterRequest (env : Env) : List (List Char) :=
  (requestEntriesCreated env).filter (fun p => !(env.tmpdir.isPrefixOf p))

/-! ## Status reporter -/

/-- The `/health` response body (`status` and `services["cad"]`). -/
structure HealthResponse where
  status : List Char
  cad : List Char
deriving DecidableEq, Repr

/-- Shallow embedding of `health` (lines 60-74).  `cadResolvable`
records whether `import build123d` succeeds (`true`) or raises
`ImportError` (`false`). -/
def health (cadResolvable : Bool) : HealthResponse :=
  let cad := if cadResolvable then "ready".toList else "missing".toList
  ⟨if cad = "ready".toList then "healthy".toList else "degraded".toList, cad⟩

/-! ## Streamlit self-test path (lines 231-267) -/

/-- The fixed test script of the self-test button. -/
def testCode : List Char :=
  "\nfrom build123d import *\n\nwith BuildPart() as p:\n    Box(10, 10, 10)\n\nresult_part = p.part\nexport_stl(result_part, ".toList ++
    singleQuotedLit ++ ")\n".toList

/-- Modelled from the spec: textual description of the timeout fault
raised by the process-execution facility (`str(TimeoutExpired)`). -/
def timeoutExpiredStr (t : Nat) : List Char :=
  ("timed out after " ++ toString t ++ " seconds").toList

/-- What the self-test displays. -/
inductive TestUiOutcome where
  | passed
  | failed (stderr : List Char)
  | errored (msg : List Char)
deriving DecidableEq, Repr

/-- Oracle environment for the self-test path. -/
structure TestEnv where
  tmpdir : List Char
  writeFault : List Char → Option (List Char)
  proc : ProcBehavior
  artifactAfter : Option (List Nat)

/-- Shallow embedding of the self-test button body (lines 243-267): the
whole body sits inside `try ... except Exception`, only the
single-quoted literal is rewritten, the subprocess runs with a
10-second timeout, and success requires exit code 0 together with an
existing artifact file. -/
def selfTest (env : TestEnv) : TestUiOutcome :=
  match env.writeFault (replaceAll singleQuotedLit (sQuotedPath env.tmpdir) testCode) with
  | some m => .errored m
  | none =>
    match subprocessRun 10 env.proc with
    | .raised m => .errored m
    | .timedOut => .errored (timeoutExpiredStr 10)
    | .completed rc _out err =>
      if rc = 0 && env.artifactAfter.isSome then .passed
      else .failed err

/-! ## Helper lemmas -/

theorem b64CharVal_b64Char : ∀ s, s < 64 → b64CharVal (b64Char s) = s := by decide

theorem b64Char_ne_pad : ∀ s, s < 64 → b64Char s ≠ '=' := by decide

theorem b64_roundtrip : ∀ bs : List Nat, (∀ x ∈ bs, x < 256) →
    b64decode (b64encode bs) = bs := by
  have key : ∀ n (bs : List Nat), bs.length ≤ n → (∀ x ∈ bs, x < 256) →
      b64decode (b64encode bs) = bs := by
    intro n
    induction n with
    | zero =>
      intro bs hl _
      rcases bs with _ | ⟨a, bs⟩
      · rfl
      · simp at hl
    | succ n ih =>
      intro bs hl hb
      rcases bs with _ | ⟨a, bs⟩
      · rfl
      rcases bs with _ | ⟨b, bs⟩
      · have ha : a < 256 := hb a (by simp)
        have e1 := b64CharVal_b64Char (a / 4) (by omega)
        have e2 := b64CharVal_b64Char (a % 4 * 16) (by omega)
        simp [b64encode, b64decode, e1, e2]
        omega
      rcases bs with _ | ⟨c, rest⟩
      · have ha : a < 256 := hb a (by simp)
        have hbb : b < 256 := hb b (by simp)
        have e1 := b64CharVal_b64Char (a / 4) (by omega)
        have e2 := b64CharVal_b64Char (a % 4 * 16 + b / 16) (by omega)
        have e3 := b64CharVal_b64Char (b % 16 * 4) (by omega)
        have ne3 := b64Char_ne_pad (b % 16 * 4) (by omega)
        simp [b64encode, b64decode, e1, e2, e3, ne3]
        omega
      · have ha : a < 256 := hb a (by simp)
        have hbb : b < 256 := hb b (by simp)
        have hc : c < 256 := hb c (by simp)
        have e1 := b64CharVal_b64Char (a / 4) (by omega)
        have e2 := b64CharVal_b64Char (a % 4 * 16 + b / 16) (by omega)
        have e3 := b64CharVal_b64Char (b % 16 * 4 + c / 64) (by omega)
        have e4 := b64CharVal_b64Char (c % 64) (by omega)
        have ne3 := b64Char_ne_pad (b % 16 * 4 + c / 64) (by omega)
        have ne4 := b64Char_ne_pad (c % 64) (by omega)
        have hrest : b64decode (b64encode rest) = rest := by
          refine ih rest ?_ (fun x hx => hb x (by simp [hx]))
          simp at hl
          omega
        simp [b64encode, b64decode, e1, e2, e3, e4, ne3, ne4, hrest]
        omega
  exact fun bs hb => key bs.length bs le_rfl hb

theorem replaceAllFuel_id_of_not_contains (pat rep : List Char) :
    ∀ fuel s, containsSeq pat s = false → replaceAllFuel fuel pat rep s = s := by
  intro fuel
  induction fuel with
  | zero => intro s _; rfl
  | succ n ih =>
    intro s hs
    rcases s with _ | ⟨c, rest⟩
    · rfl
    · simp only [containsSeq, Bool.or_eq_false_iff] at hs
      simp [replaceAllFuel, hs.1, ih rest hs.2]

theorem replaceAll_id_of_not_contains (pat rep s : List Char)
    (h : containsSeq pat s = false) : replaceAll pat rep s = s :=
  replaceAllFuel_id_of_not_contains pat rep s.length s h

theorem isPrefixOf_append_self (l t : List Char) : l.isPrefixOf (l ++ t) = true := by
  induction l with
  | nil => simp [List.isPrefixOf]
  | cons c cs ih => simp [List.isPrefixOf, ih]

theorem isPrefixOf_self (l : List Char) : l.isPrefixOf l = true := by
  have h := isPrefixOf_append_self l []
  rwa [List.append_nil] at h

/-! ## Claim theorems -/

/-- C1 counterexample: a failure while writing the script file happens
before the `try` block of `generate_cad`, so it propagates out of the
handler as an exception instead of being converted into the `error`
field of a returned result (concretely: writing a request whose code
contains a lone surrogate raises `UnicodeEncodeError`). -/
theorem generate_cad_raises_on_write_fault :
    generate_cad
        ⟨"/t".toList,
         fun _ => some "UnicodeEncodeError: utf-8 codec cannot encode character".toList,
         ⟨0, 0, [], [], none⟩, none, none⟩
        "x = 1".toList
      = Except.error "UnicodeEncodeError: utf-8 codec cannot encode character".toList := by
  rfl

/-- C1 (amended): every failure path inside the `try` block of
`generate_cad` — subprocess execution (including spawn faults and the
timeout), artifact reading and encoding — is captured and converted
into the `error` field of a returned result, so whenever the script
write succeeds the handler returns a result and no exception
propagates; a failure while writing the script file, which happens
before the `try` block, propagates out of the handler. -/
theorem generate_cad_no_raise_when_write_ok (env : Env) (code : List Char)
    (hw : env.writeFault (prepareCode env.tmpdir code) = none) :
    ∃ r, generate_cad env code = Except.ok r := by
  unfold generate_cad
  rw [hw]
  cases subprocessRun 45 env.proc with
  | raised m => exact ⟨_, rfl⟩
  | timedOut => exact ⟨_, rfl⟩
  | completed rc out err =>
    dsimp only
    split
    · exact ⟨_, rfl⟩
    · cases env.artifactAfter with
      | none => exact ⟨_, rfl⟩
      | some bytes =>
        cases env.readFault with
        | some m => exact ⟨_, rfl⟩
        | none => exact ⟨_, rfl⟩

/-- C1 witness: a concrete run in which the write succeeds and the
handler returns a result. -/
theorem generate_cad_no_raise_when_write_ok_witness :
    ∃ r, generate_cad
        ⟨"/t".toList, fun _ => none, ⟨0, 0, [], [], none⟩, none, none⟩
        "x = 1".toList = Except.ok r :=
  generate_cad_no_raise_when_write_ok _ _ rfl

/-- C2: whenever `generate_cad` returns a result, it has exactly one of
the two shapes: `success=true` with `stl_data` set and `error` unset,
or `success=false` with `error` set and `stl_data` unset. -/
theorem generate_cad_result_shape (env : Env) (code : List Char) (r : CADResponse)
    (h : generate_cad env code = Except.ok r) :
    (r.success = true ∧ r.stl_data.isSome = true ∧ r.error = none) ∨
      (r.success = false ∧ r.error.isSome = true ∧ r.stl_data = none) := by
  unfold generate_cad at h
  split at h
  · simp at h
  · split at h
    · injection h with h; subst h; right; simp
    · injection h with h; subst h; right; simp
    · split at h
      · injection h with h; subst h; right; simp
      · split at h
        · injection h with h; subst h; right; simp
        · split at h
          · injection h with h; subst h; right; simp
          · injection h with h; subst h; left; simp

/-- C2 witness: the shape property at a concrete successful run. -/
theorem generate_cad_result_shape_witness :
    ((⟨true, some [], none⟩ : CADResponse).success = true ∧
        (⟨true, some [], none⟩ : CADResponse).stl_data.isSome = true ∧
        (⟨true, some [], none⟩ : CADResponse).error = none) ∨
      ((⟨true, some [], none⟩ : CADResponse).success = false ∧
        (⟨true, some [], none⟩ : CADResponse).error.isSome = true ∧
        (⟨true, some [], none⟩ : CADResponse).stl_data = none) :=
  generate_cad_result_shape
    ⟨"/t".toList, fun _ => none, ⟨1, 0, [], [], none⟩, some [], none⟩
    "x = 1".toList ⟨true, some [], none⟩ rfl

/-- C3 counterexample: not every occurrence of the single-quoted
literal is replaced.  In the code `'output.stl'output.stl'` two
occurrences of `'output.stl'` overlap (they share the middle quote);
the left-to-right scan of `str.replace` only rewrites the first one, so
the rewritten code still contains the literal `'output.stl'`, even
though the replacement text itself does not contain it. -/
theorem prepareCode_overlap_counterexample :
    containsSeq singleQuotedLit
        (prepareCode "/t".toList
          (singleQuotedLit ++ ("output.stl".toList ++ [squote]))) = true
      ∧ containsSeq singleQuotedLit (sQuotedPath "/t".toList) = false := by
  decide

/-- C3 (amended): the incoming code is rewritten by two sequential
left-to-right replace-all passes — first every non-overlapping
occurrence of the single-quoted literal `'output.stl'` is replaced by
the single-quoted workspace artifact path, then likewise for the
double-quoted form — and code containing neither literal form is
passed through unchanged; when two occurrences overlap (sharing a
quote character) only the leftmost is replaced, so the literal can
survive the rewrite. -/
theorem prepareCode_rewrite_spec (tmpdir code : List Char)
    (h1 : containsSeq singleQuotedLit code = false)
    (h2 : containsSeq doubleQuotedLit code = false) :
    prepareCode tmpdir code =
        replaceAll doubleQuotedLit (dQuotedPath tmpdir)
          (replaceAll singleQuotedLit (sQuotedPath tmpdir) code)
      ∧ prepareCode tmpdir code = code := by
  refine ⟨rfl, ?_⟩
  unfold prepareCode
  rw [replaceAll_id_of_not_contains _ _ _ h1, replaceAll_id_of_not_contains _ _ _ h2]

/-- C3 witness: a concrete code without either literal form passes
through unchanged. -/
theorem prepareCode_rewrite_spec_witness :
    prepareCode "/t".toList "print(1)".toList =
        replaceAll doubleQuotedLit (dQuotedPath "/t".toList)
          (replaceAll singleQuotedLit (sQuotedPath "/t".toList) "print(1)".toList)
      ∧ prepareCode "/t".toList "print(1)".toList = "print(1)".toList :=
  prepareCode_rewrite_spec _ _ (by decide) (by decide)

/-- C4: when the subprocess exits non-zero, `generate_cad` returns
`success=false` with `error` equal to the first 500 characters of the
captured standard-error text, for every standard-output content and
every artifact state. -/
theorem generate_cad_nonzero_exit (env : Env) (code : List Char)
    (hw : env.writeFault (prepareCode env.tmpdir code) = none)
    (hs : env.proc.spawnFault = none)
    (ht : env.proc.wallTime ≤ 45)
    (hrc : env.proc.exitCode ≠ 0) :
    generate_cad env code =
      Except.ok ⟨false, none, some (env.proc.stderr.take 500)⟩ := by
  simp [generate_cad, subprocessRun, hw, hs, ht, hrc]

/-- C4 witness: a concrete non-zero-exiting run, with non-empty
standard output and an existing artifact, still reports the truncated
standard-error text. -/
theorem generate_cad_nonzero_exit_witness :
    generate_cad
        ⟨"/t".toList, fun _ => none,
         ⟨1, 2, "Export OK".toList, "boom".toList, none⟩, some [7], none⟩
        "x = 1".toList
      = Except.ok ⟨false, none, some ("boom".toList.take 500)⟩ :=
  generate_cad_nonzero_exit _ _ rfl rfl (by decide) (by decide)

/-- C5: when the subprocess exits zero but the artifact file does not
exist, `generate_cad` returns `success=false` with the fixed
artifact-not-produced message, for every standard-output content. -/
theorem generate_cad_artifact_missing (env : Env) (code : List Char)
    (hw : env.writeFault (prepareCode env.tmpdir code) = none)
    (hs : env.proc.spawnFault = none)
    (ht : env.proc.wallTime ≤ 45)
    (hrc : env.proc.exitCode = 0)
    (ha : env.artifactAfter = none) :
    generate_cad env code = Except.ok ⟨false, none, some msgArtifactMissing⟩ := by
  simp [generate_cad, subprocessRun, hw, hs, ht, hrc, ha]

/-- C5 witness: a concrete zero-exiting run with successful-looking
standard output and no artifact file. -/
theorem generate_cad_artifact_missing_witness :
    generate_cad
        ⟨"/t".toList, fun _ => none,
         ⟨1, 0, "Export OK".toList, [], none⟩, none, none⟩
        "x = 1".toList
      = Except.ok ⟨false, none, some msgArtifactMissing⟩ :=
  generate_cad_artifact_missing _ _ rfl rfl (by decide) rfl rfl

/-- C6: the generation endpoint runs the subprocess with a 45-second
wall-clock timeout and the self-test path with a 10-second one; when
execution exceeds the budget, `generate_cad` returns `success=false`
with the fixed timeout message, the self-test reports the timeout
fault, and in both paths the child process is killed (not leaked). -/
theorem timeout_enforced (env : Env) (code : List Char) (tenv : TestEnv)
    (hw : env.writeFault (prepareCode env.tmpdir code) = none)
    (hs : env.proc.spawnFault = none)
    (ht : 45 < env.proc.wallTime)
    (hw2 : tenv.writeFault
        (replaceAll singleQuotedLit (sQuotedPath tenv.tmpdir) testCode) = none)
    (hs2 : tenv.proc.spawnFault = none)
    (ht2 : 10 < tenv.proc.wallTime) :
    generate_cad env code = Except.ok ⟨false, none, some msgTimeout⟩
      ∧ childStateAfter 45 env.proc = ChildState.killed
      ∧ selfTest tenv = TestUiOutcome.errored (timeoutExpiredStr 10)
      ∧ childStateAfter 10 tenv.proc = ChildState.killed := by
  have h45 : ¬ env.proc.wallTime ≤ 45 := by omega
  have h10 : ¬ tenv.proc.wallTime ≤ 10 := by omega
  refine ⟨?_, ?_, ?_, ?_⟩
  · simp [generate_cad, subprocessRun, hw, hs, h45]
  · simp [childStateAfter, hs, h45]
  · simp [selfTest, subprocessRun, hw2, hs2, h10]
  · simp [childStateAfter, hs2, h10]

/-- C6 witness: a 46-second script on the generation path and an
11-second script on the self-test path. -/
theorem timeout_enforced_witness :
    generate_cad
          ⟨"/t".toList, fun _ => none, ⟨46, 0, [], [], none⟩, none, none⟩
          "x = 1".toList
        = Except.ok ⟨false, none, some msgTimeout⟩
      ∧ childStateAfter 45 ⟨46, 0, [], [], none⟩ = ChildState.killed
      ∧ selfTest ⟨"/u".toList, fun _ => none, ⟨11, 0, [], [], none⟩, none⟩
        = TestUiOutcome.errored (timeoutExpiredStr 10)
      ∧ childStateAfter 10 ⟨11, 0, [], [], none⟩ = ChildState.killed :=
  timeout_enforced
    ⟨"/t".toList, fun _ => none, ⟨46, 0, [], [], none⟩, none, none⟩
    "x = 1".toList
    ⟨"/u".toList, fun _ => none, ⟨11, 0, [], [], none⟩, none⟩
    rfl rfl (by decide) rfl rfl (by decide)

/-- C7: every filesystem entry created while serving a request lies
inside the scoped workspace directory, and after `generate_cad`
returns — on every exit path, exceptional ones included, since the
`tempfile.TemporaryDirectory` context manager always runs — no entry
of the workspace (the directory itself, the script file, the artifact
file) still exists. -/
theorem generate_cad_workspace_clean (env : Env) :
    entriesAfterRequest env = [] ∧
      ∀ p ∈ requestEntriesCreated env, env.tmpdir.isPrefixOf p = true := by
  rcases env with ⟨tmp, wf, proc, art, rf⟩
  cases art <;>
    constructor <;>
      simp [entriesAfterRequest, requestEntriesCreated, scriptPath, outputPath,
        isPrefixOf_self, isPrefixOf_append_self]

/-- C8: when the subprocess exits zero and leaves a byte sequence at
the artifact path, `generate_cad` succeeds with `stl_data` equal to the
base64 encoding of those bytes, and base64-decoding that string yields
exactly the original byte sequence. -/
theorem generate_cad_roundtrip (env : Env) (code : List Char) (bs : List Nat)
    (hw : env.writeFault (prepareCode env.tmpdir code) = none)
    (hs : env.proc.spawnFault = none)
    (ht : env.proc.wallTime ≤ 45)
    (hrc : env.proc.exitCode = 0)
    (ha : env.artifactAfter = some bs)
    (hr : env.readFault = none)
    (hb : ∀ x ∈ bs, x < 256) :
    generate_cad env code = Except.ok ⟨true, some (b64encode bs), none⟩
      ∧ b64decode (b64encode bs) = bs := by
  refine ⟨?_, b64_roundtrip bs hb⟩
  simp [generate_cad, subprocessRun, hw, hs, ht, hrc, ha, hr]

/-- C8 witness: a concrete five-byte artifact round-trips through the
returned base64 payload. -/
theorem generate_cad_roundtrip_witness :
    generate_cad
          ⟨"/t".toList, fun _ => none, ⟨1, 0, [], [], none⟩,
           some [83, 84, 76, 0, 255], none⟩
          "x = 1".toList
        = Except.ok ⟨true, some (b64encode [83, 84, 76, 0, 255]), none⟩
      ∧ b64decode (b64encode [83, 84, 76, 0, 255]) = [83, 84, 76, 0, 255] :=
  generate_cad_roundtrip _ _ _ rfl rfl (by decide) rfl rfl rfl (by decide)

/-- C9: the readiness query is total and returns exactly one of two
outcomes: `healthy`/`ready` when the geometry library resolves and
`degraded`/`missing` when it does not. -/
theorem health_readiness :
    health true = ⟨"healthy".toList, "ready".toList⟩
      ∧ health false = ⟨"degraded".toList, "missing".toList⟩
      ∧ ∀ b, health b = ⟨"healthy".toList, "ready".toList⟩
          ∨ health b = ⟨"degraded".toList, "missing".toList⟩ := by
  decide

/-- C10: when the subprocess exits zero and the artifact file exists
but is empty, `generate_cad` returns `success=true` with `stl_data`
equal to the empty string, not the artifact-missing failure. -/
theorem generate_cad_empty_artifact (env : Env) (code : List Char)
    (hw : env.writeFault (prepareCode env.tmpdir code) = none)
    (hs : env.proc.spawnFault = none)
    (ht : env.proc.wallTime ≤ 45)
    (hrc : env.proc.exitCode = 0)
    (ha : env.artifactAfter = some [])
    (hr : env.readFault = none) :
    generate_cad env code = Except.ok ⟨true, some [], none⟩ := by
  simp [generate_cad, subprocessRun, hw, hs, ht, hrc, ha, hr, b64encode]

/-- C10 witness: a concrete zero-exiting run leaving an empty artifact
file succeeds with empty payload. -/
theorem generate_cad_empty_artifact_witness :
    generate_cad
        ⟨"/t".toList, fun _ => none, ⟨2, 0, [], [], none⟩, some [], none⟩
        "y = 2".toList
      = Except.ok ⟨true, some [], none⟩ :=
  generate_cad_empty_artifact _ _ rfl rfl (by decide) rfl rfl rfl

end DeltaV2
